import Mathlib

/-!
Verification development for the OpenList storage-driver plugin subsystem.

The Go sources embedded here are:
  * `internal/op/driver.go` — the host driver registry (`RegisterDriver`,
    `UnregisterDriver`, `IsDriverRegistered`, `GetDriver`,
    `registerDriverItems`, `getMainItems`, `getAdditionalItems`);
  * `internal/plugin/adapter.go` — the boundary adapter (`Config`,
    `GetAddition`, `structToMap` and the JSON envelope round trip);
  * the plugin lifecycle manager (`Manager.LoadPlugin`,
    `Manager.LoadPluginsFromDir`, `Manager.UnloadPlugin`,
    `Manager.ReloadPlugin`, `Manager.GetLoadedPlugins`,
    `Manager.GetPluginDrivers`, `Manager.registerPluginDriver`).

Go maps are embedded as association lists with the usual
lookup/insert/delete operations; Go slices handed across an interface are
embedded as references into an explicit slice store, so that the aliasing
behaviour of returned slices is visible.  Each operation is embedded as a
pure state transformer giving its sequential (single-goroutine) data
semantics; the mutex discipline of the registry is modelled separately as
the trace of lock operations a call performs (see `RegisterDriver_locks`).
External process spawning and RPC are modelled by a `SpawnOutcome`
parameter recording at which step, if any, the environment fails and what
the plugin reports.
-/

namespace OpenList

/-! ## Association-list embedding of Go maps (keys are strings) -/

def lookupK {α : Type} : List (String × α) → String → Option α
  | [], _ => none
  | (k', v) :: rest, k => if k' = k then some v else lookupK rest k

def delK {α : Type} : List (String × α) → String → List (String × α)
  | [], _ => []
  | (k', v) :: rest, k => if k' = k then delK rest k else (k', v) :: delK rest k

/-- Go map assignment `m[k] = v`: afterwards `k` maps to `v` and every other
key is unchanged. -/
def upsert {α : Type} (l : List (String × α)) (k : String) (v : α) : List (String × α) :=
  (k, v) :: delK l k

/-- Removal of one element from a multiset of process ids (`Client.Kill`
removes the killed process from the set of running subprocesses). -/
def eraseFirst : List Nat → Nat → List Nat
  | [], _ => []
  | x :: rest, n => if x = n then rest else x :: eraseFirst rest n

/-! ## Envelope values (`map[string]interface{}` contents, JSON values)

`EValue` is the schema-less envelope value produced by serializing a host
record with `encoding/json` and reading it back as `map[string]interface{}`.
Numbers in such an envelope are IEEE-754 doubles; the model carries the
integer itself, and every statement about numeric fields is made under the
supported-width bound `|n| ≤ 2^53` inside which doubles are exact, matching
the specification's notion of a representable numeric width. -/

mutual
inductive EValue where
  | eStr (s : String)
  | eBool (b : Bool)
  | eNum (n : Int)
  | eObj (fields : EntryList)
inductive EntryList where
  | nil
  | cons (key : String) (v : EValue) (rest : EntryList)
end

/-! ## Host records and their shapes (typed structs crossing the boundary) -/

mutual
inductive FieldValue where
  | fStr (s : String)
  | fBool (b : Bool)
  | fInt (n : Int)
  | fRec (fields : FieldList)
inductive FieldList where
  | nil
  | cons (key : String) (v : FieldValue) (rest : FieldList)
end

mutual
inductive Shape where
  | sStr
  | sBool
  | sInt
  | sRec (fields : ShapeList)
inductive ShapeList where
  | nil
  | cons (key : String) (sh : Shape) (rest : ShapeList)
end

/- `structToMap` (adapter.go): `json.Marshal` of the struct followed by
`json.Unmarshal` into `map[string]interface{}` — structurally, each field
value becomes the corresponding envelope value, in field-declaration
order. -/
mutual
def encodeV : FieldValue → EValue
  | .fStr s => .eStr s
  | .fBool b => .eBool b
  | .fInt n => .eNum n
  | .fRec fl => .eObj (encodeL fl)
def encodeL : FieldList → EntryList
  | .nil => .nil
  | .cons k v rest => .cons k (encodeV v) (encodeL rest)
end

def structToMap (fl : FieldList) : EntryList := encodeL fl

def lookupE : EntryList → String → Option EValue
  | .nil, _ => none
  | .cons k v rest, key => if k = key then some v else lookupE rest key

/- The zero value `json.Unmarshal` writes into a struct field that is
absent from the incoming object. -/
mutual
def zeroV : Shape → FieldValue
  | .sStr => .fStr ""
  | .sBool => .fBool false
  | .sInt => .fInt 0
  | .sRec shl => .fRec (zeroL shl)
def zeroL : ShapeList → FieldList
  | .nil => .nil
  | .cons k sh rest => .cons k (zeroV sh) (zeroL rest)
end

/- `json.Unmarshal` of an envelope into a struct of the given shape:
each declared field is looked up by name; a missing field gets its zero
value, a field of the wrong structural kind is a decoding error. -/
mutual
def decodeV : Shape → EValue → Option FieldValue
  | .sStr, .eStr s => some (.fStr s)
  | .sBool, .eBool b => some (.fBool b)
  | .sInt, .eNum n => some (.fInt n)
  | .sRec shl, .eObj entries => (decodeFields shl entries).map .fRec
  | _, _ => none
def decodeFields : ShapeList → EntryList → Option FieldList
  | .nil, _ => some .nil
  | .cons k sh rest, entries =>
    let v? : Option FieldValue :=
      match lookupE entries k with
      | none => some (zeroV sh)
      | some ev => decodeV sh ev
    match v?, decodeFields rest entries with
    | some v, some tail => some (.cons k v tail)
    | _, _ => none
end

/-- Key occurs among the declared field names of a shape list. -/
def keyMemS : String → ShapeList → Bool
  | _, .nil => false
  | k, .cons k' _ rest => if k' = k then true else keyMemS k rest

/- A record is composed of the supported field types for a shape:
strings, booleans, integers within the exactly-representable double
width (`|n| ≤ 2^53`), and nested records; struct field names are
distinct, as they are in a Go struct declaration. -/
mutual
def wellTypedV : Shape → FieldValue → Bool
  | .sStr, .fStr _ => true
  | .sBool, .fBool _ => true
  | .sInt, .fInt n => decide (n.natAbs ≤ 2 ^ 53)
  | .sRec shl, .fRec fl => wellTypedL shl fl
  | _, _ => false
def wellTypedL : ShapeList → FieldList → Bool
  | .nil, .nil => true
  | .cons k sh rest, .cons k' v rest' =>
    decide (k = k') && !(keyMemS k rest) && wellTypedV sh v && wellTypedL rest rest'
  | _, _ => false
end

/-! ## Driver registry (`internal/op/driver.go`) -/

/-- `driver.Item` (a configuration form item); its declaration lives with
the host's driver package, and the fields are the ones `driver.go`
populates.  Go zero values are the field defaults. -/
structure Item where
  Name : String := ""
  type : String := ""
  Default : String := ""
  Options : String := ""
  Required : Bool := false
  Help : String := ""
deriving DecidableEq, Repr

/-- `conf.TypeString` and friends: string constants of the host's conf
package (their exact values are irrelevant to every claim). -/
def TypeString : String := "string"

def TypeNumber : String := "number"

def TypeText : String := "text"

def TypeSelect : String := "select"

def TypeBool : String := "bool"

/-- `driver.Config`.  The fields are exactly the ones `adapter.go` sets and
`driver.go` reads.  `MustProxyVal` records the result of the external
method `Config.MustProxy()` whose body lives outside this source slice;
for the adapter's descriptor every proxy-related flag is false and the
recorded value is false. -/
structure DriverConfig where
  Name : String := ""
  LocalSort : Bool := false
  OnlyLinkMFile : Bool := false
  OnlyProxy : Bool := false
  NoCache : Bool := false
  NoUpload : Bool := false
  NeedMs : Bool := false
  DefaultRoot : String := ""
  CheckStatus : Bool := false
  Alert : String := ""
  NoOverwriteUpload : Bool := false
  ProxyRangeOption : Bool := false
  NoLinkURL : Bool := false
  MustProxyVal : Bool := false
deriving DecidableEq, Repr

/- A struct field of a driver's Additional struct, as seen by the
reflection walk of `getAdditionalItems`: either a plain field with its
struct tags, or an embedded struct whose fields are walked recursively. -/
mutual
inductive AddField where
  | plain (typeName : String) (ignoreTag : Option String) (jsonTag : Option String)
      (defaultTag : String) (optionsTag : String) (requiredTag : String)
      (helpTag : String) (typeTag : String)
  | nested (fields : AddFieldList)
inductive AddFieldList where
  | nil
  | cons (f : AddField) (rest : AddFieldList)
end

/-- The dynamic kind of a `driver.Additional` value: plugin drivers return
a `map[string]interface{}` (after pointer indirections are stripped), while
built-in drivers return a struct with tagged fields. -/
inductive Additional where
  | mapAdd (entries : List (String × EValue))
  | structAdd (fields : AddFieldList)

/- `getAdditionalItems` (driver.go): derive configuration items from the
tagged fields of an Additional struct. -/
mutual
def getAdditionalItemsL : AddFieldList → String → List Item
  | .nil, _ => []
  | .cons f rest, defaultRoot => getAdditionalItemsF f defaultRoot ++ getAdditionalItemsL rest defaultRoot
def getAdditionalItemsF : AddField → String → List Item
  | .nested fl, defaultRoot => getAdditionalItemsL fl defaultRoot
  | .plain typeName ignoreTag jsonTag defaultTag optionsTag requiredTag helpTag typeTag,
      defaultRoot =>
    match jsonTag with
    | none => []
    | some name =>
      if ignoreTag = some "true" then []
      else
        let item : Item :=
          { Name := name, type := typeName.toLower, Default := defaultTag,
            Options := optionsTag, Required := requiredTag = "true", Help := helpTag }
        let item := if typeTag ≠ "" then { item with type := typeTag } else item
        let item :=
          if name = "root_folder_id" ∨ name = "root_folder_path" then
            let item := if item.Default = "" then { item with Default := defaultRoot } else item
            { item with Required := item.Default ≠ "" }
          else item
        let item := if item.type = "" then { item with type := "string" } else item
        [item]
end

/-- `getMainItems` (driver.go): the configuration items common to every
driver, assembled from the driver's Config flags. -/
def getMainItems (config : DriverConfig) : List Item :=
  let items : List Item :=
    [{ Name := "mount_path", type := TypeString, Required := true,
       Help := "The path you want to mount to, it is unique and cannot be repeated" },
     { Name := "order", type := TypeNumber, Help := "use to sort" },
     { Name := "remark", type := TypeText }]
  let items :=
    if !config.NoCache then
      items ++ [{ Name := "cache_expiration", type := TypeNumber, Default := "30",
                  Required := true, Help := "The cache expiration time for this storage" }]
    else items
  let items :=
    if config.MustProxyVal then
      items ++ [{ Name := "webdav_policy", type := TypeSelect, Default := "native_proxy",
                  Options := "use_proxy_url,native_proxy", Required := true }]
    else
      let items :=
        items ++ [{ Name := "web_proxy", type := TypeBool },
                  { Name := "webdav_policy", type := TypeSelect,
                    Options := "302_redirect,use_proxy_url,native_proxy",
                    Default := "302_redirect", Required := true }]
      if config.ProxyRangeOption then
        let item : Item := { Name := "proxy_range", type := TypeBool, Help := "Need to enable proxy" }
        let item := if config.Name = "139Yun" then { item with Default := "true" } else item
        items ++ [item]
      else items
  let items := items ++ [{ Name := "down_proxy_url", type := TypeText }]
  let items :=
    items ++ [{ Name := "disable_proxy_sign", type := TypeBool, Default := "false",
                Help := "Disable sign for Download proxy URL" }]
  let items :=
    if config.LocalSort then
      items ++ [{ Name := "order_by", type := TypeSelect, Options := "name,size,modified" },
                { Name := "order_direction", type := TypeSelect, Options := "asc,desc" }]
    else items
  let items := items ++ [{ Name := "extract_folder", type := TypeSelect, Options := "front,back" }]
  let items := items ++ [{ Name := "disable_index", type := TypeBool, Default := "false", Required := true }]
  let items := items ++ [{ Name := "enable_sign", type := TypeBool, Default := "false", Required := true }]
  items

/-- `driver.Info`, the registry's record per driver name. -/
structure DriverInfo where
  Common : List Item
  Additional : List Item
  Config : DriverConfig

/-- A boundary adapter bound to one (plugin RPC client, remote driver
name) pair.  The RPC client is identified by the client id of the owning
plugin process. -/
structure PluginDriverAdapter where
  pluginClient : Nat
  driverName : String

def NewPluginDriverAdapter (pluginClient : Nat) (driverName : String) : PluginDriverAdapter :=
  { pluginClient := pluginClient, driverName := driverName }

/-- `PluginDriverAdapter.Config` (adapter.go): a fixed placeholder
descriptor — it issues no remote call and depends only on the bound
driver name. -/
def PluginDriverAdapter.Config (a : PluginDriverAdapter) : DriverConfig :=
  { Name := a.driverName,
    LocalSort := false,
    OnlyLinkMFile := false,
    OnlyProxy := false,
    NoCache := false,
    NoUpload := false,
    NeedMs := false,
    DefaultRoot := "/",
    CheckStatus := false,
    Alert := "",
    NoOverwriteUpload := false,
    ProxyRangeOption := false,
    NoLinkURL := false,
    MustProxyVal := false }

/-- `PluginDriverAdapter.GetAddition` (adapter.go):
`make(map[string]interface{})`, an empty generic map. -/
def PluginDriverAdapter.GetAddition (_ : PluginDriverAdapter) : Additional :=
  Additional.mapAdd []

/-- A `DriverConstructor` held by the registry: a built-in driver factory
(carrying the Config and Additional its driver reports, and an opaque
tag), or the closure `func() driver.Driver { return
NewPluginDriverAdapter(pluginClient, driverName) }` built by
`registerPluginDriver`. -/
inductive DriverCtor where
  | builtin (cfg : DriverConfig) (add : Additional) (tag : Nat)
  | pluginCtor (clientId : Nat) (driverName : String)

/-- The Config reported by `driver().Config()` for a constructor. -/
def ctorConfig : DriverCtor → DriverConfig
  | .builtin cfg _ _ => cfg
  | .pluginCtor cid name => (NewPluginDriverAdapter cid name).Config

/-- The Additional reported by `driver().GetAddition()` for a constructor. -/
def ctorAddition : DriverCtor → Additional
  | .builtin _ add _ => add
  | .pluginCtor _ _ => Additional.mapAdd []

/-- The registry's two package-level maps. -/
structure RegistryState where
  driverMap : List (String × DriverCtor)
  driverInfoMap : List (String × DriverInfo)

/-- `registerDriverItems` (driver.go), data effect: record the driver's
Info under its config name.  When the Additional value is of map kind
(plugin drivers) the additional-items list is left empty instead of being
derived by field reflection. -/
def registerDriverItems (config : DriverConfig) (addition : Additional)
    (reg : RegistryState) : RegistryState :=
  let additionalItems : List Item :=
    match addition with
    | Additional.mapAdd _ => []
    | Additional.structAdd fl => getAdditionalItemsL fl config.DefaultRoot
  { reg with
    driverInfoMap :=
      upsert reg.driverInfoMap config.Name
        { Common := getMainItems config, Additional := additionalItems, Config := config } }

/-- `RegisterDriver` (driver.go), data effect: instantiate the
constructor once to read its Config and Additional, record the driver's
items, and store the constructor under the config name. -/
def RegisterDriver (ctor : DriverCtor) (reg : RegistryState) : RegistryState :=
  let tempConfig := ctorConfig ctor
  let reg1 := registerDriverItems tempConfig (ctorAddition ctor) reg
  { reg1 with driverMap := upsert reg1.driverMap tempConfig.Name ctor }

/-- `UnregisterDriver` (driver.go): delete the name from both maps. -/
def UnregisterDriver (name : String) (reg : RegistryState) : RegistryState :=
  { driverMap := delK reg.driverMap name,
    driverInfoMap := delK reg.driverInfoMap name }

/-- `IsDriverRegistered` (driver.go). -/
def IsDriverRegistered (reg : RegistryState) (name : String) : Bool :=
  (lookupK reg.driverMap name).isSome

/-- `GetDriver` (driver.go). -/
def GetDriver (reg : RegistryState) (name : String) : Except String DriverCtor :=
  match lookupK reg.driverMap name with
  | none => Except.error ("no driver named: " ++ name)
  | some c => Except.ok c

/-! ## Mutex discipline of the registry (`driverMutex`)

`sync.Mutex` is not reentrant: a goroutine that executes `Lock` while it
already holds the mutex blocks forever.  The trace below lists, in order,
the mutex operations one call performs on `driverMutex`. -/

inductive LockOp where
  | lock
  | unlock
deriving DecidableEq, Repr

/-- Mutex operations of one `registerDriverItems` call: it locks the
registry mutex on entry and unlocks it via its deferred function. -/
def registerDriverItems_locks : List LockOp := [LockOp.lock, LockOp.unlock]

/-- Mutex operations of one `RegisterDriver` call: it locks `driverMutex`,
runs `registerDriverItems` (whose operations are spliced in), and unlocks
via its own deferred call. -/
def RegisterDriver_locks : List LockOp :=
  [LockOp.lock] ++ registerDriverItems_locks ++ [LockOp.unlock]

def reacquiresHeldAux : Bool → List LockOp → Bool
  | _, [] => false
  | held, LockOp.lock :: rest => held || reacquiresHeldAux true rest
  | _, LockOp.unlock :: rest => reacquiresHeldAux false rest

/-- A single call path attempts to acquire the mutex at a point where the
same call already holds it — with a non-reentrant mutex the call blocks
forever at that point. -/
def reacquiresHeld (ops : List LockOp) : Bool := reacquiresHeldAux false ops

/-! ## Plugin lifecycle manager

The manager's `plugins map[string]*PluginInstance` is an association list;
a `PluginInstance.Drivers` slice is a reference into an explicit slice
store, so that handing the slice to a caller preserves the Go aliasing
behaviour.  Running subprocesses are the multiset `alive` of client ids. -/

/-- `PluginInfo` reported by the plugin over `GetInfo`. -/
structure PluginInfo where
  name : String
  version : String
  description : String
  author : String
deriving DecidableEq, Repr

/-- `PluginInstance`: the manager's record of one loaded plugin.
`clientId` identifies the running subprocess / RPC client; `driversRef`
is the reference of its `Drivers` slice in the slice store. -/
structure PluginInstance where
  name : String
  path : String
  clientId : Nat
  driversRef : Nat
deriving DecidableEq, Repr

/-- The manager's state together with the registry it calls into. -/
structure World where
  slices : List (List String)
  plugins : List (String × PluginInstance)
  alive : List Nat
  reg : RegistryState

/-- Dereference a `[]string` slice. -/
def readSlice (w : World) (r : Nat) : List String := w.slices.getD r []

/-- Allocate a fresh `[]string` slice, returning its reference. -/
def allocSlice (w : World) (l : List String) : World × Nat :=
  ({ w with slices := w.slices ++ [l] }, w.slices.length)

/-- A caller writing element `i` of a slice it holds a reference to
(`s[i] = v` on the Go slice): the write lands in the shared backing
store. -/
def writeSliceElem (w : World) (r i : Nat) (v : String) : World :=
  { w with slices := w.slices.set r ((w.slices.getD r []).set i v) }

/-- Process spawn: the new subprocess joins the running set. -/
def spawn (w : World) (cid : Nat) : World :=
  { w with alive := cid :: w.alive }

/-- `client.Kill()`: the subprocess leaves the running set. -/
def kill (w : World) (cid : Nat) : World :=
  { w with alive := eraseFirst w.alive cid }

/-- The driver list the manager currently records for a plugin (what its
`UnloadPlugin` loop and any later reader observe). -/
def recordedDrivers (w : World) (name : String) : Option (List String) :=
  (lookupK w.plugins name).map (fun inst => readSlice w inst.driversRef)

/-- What the environment (filesystem, subprocess, RPC channel) does for
one `LoadPlugin` call: at which step, if any, it fails, and what the
plugin reports when a step succeeds. -/
inductive SpawnOutcome where
  | statFail
  | connectFail
  | dispenseFail
  | infoFail
  | driversFail (info : PluginInfo)
  | ok (info : PluginInfo) (drivers : List String)

/-- `Manager.registerPluginDriver`: skip (with a warning) on a driver-name
collision, otherwise register a constructor closing over the plugin
client and the driver name. -/
def registerPluginDriver (driverName pluginName : String) (cid : Nat)
    (reg : RegistryState) : RegistryState :=
  if IsDriverRegistered reg driverName then reg
  else RegisterDriver (DriverCtor.pluginCtor cid driverName) reg

/-- `Manager.LoadPlugin`: stat the file, spawn and handshake the
subprocess, obtain the RPC interface, read `PluginInfo`, skip (killing
the fresh process) if that identity is already loaded, enumerate the
remote drivers, register each non-colliding driver name, and record the
`PluginInstance`.  Every failure kills the spawned process and changes
nothing. -/
def LoadPlugin (env : SpawnOutcome) (cid : Nat) (path : String) (w : World) :
    Except String Unit × World :=
  match env with
  | .statFail => (Except.error "plugin file not found", w)
  | .connectFail =>
    let w1 := spawn w cid
    (Except.error "failed to connect to plugin", kill w1 cid)
  | .dispenseFail =>
    let w1 := spawn w cid
    (Except.error "failed to get plugin interface", kill w1 cid)
  | .infoFail =>
    let w1 := spawn w cid
    (Except.error "failed to get plugin info", kill w1 cid)
  | .driversFail info =>
    let w1 := spawn w cid
    if (lookupK w1.plugins info.name).isSome then (Except.ok (), kill w1 cid)
    else (Except.error "failed to get plugin drivers", kill w1 cid)
  | .ok info drivers =>
    let w1 := spawn w cid
    if (lookupK w1.plugins info.name).isSome then (Except.ok (), kill w1 cid)
    else
      let wr := allocSlice w1 drivers
      let w2 := wr.1
      let ref := wr.2
      let reg1 := drivers.foldl (fun r d => registerPluginDriver d info.name cid r) w2.reg
      let inst : PluginInstance :=
        { name := info.name, path := path, clientId := cid, driversRef := ref }
      (Except.ok (),
        { w2 with reg := reg1, plugins := upsert w2.plugins info.name inst })

/-- `Manager.UnloadPlugin`: unknown names fail with a not-found error;
otherwise every driver name in the plugin's recorded list is
unregistered, the subprocess is killed, and the entry is removed. -/
def UnloadPlugin (pluginName : String) (w : World) : Except String Unit × World :=
  match lookupK w.plugins pluginName with
  | none => (Except.error ("plugin " ++ pluginName ++ " not found"), w)
  | some inst =>
    let reg1 := (readSlice w inst.driversRef).foldl (fun r d => UnregisterDriver d r) w.reg
    (Except.ok (),
      { w with
        reg := reg1,
        alive := eraseFirst w.alive inst.clientId,
        plugins := delK w.plugins pluginName })

/-- `Manager.ReloadPlugin`: read the recorded path, unload, then load the
same path again; either step's failure is surfaced (with a wrapping
message). -/
def ReloadPlugin (env : SpawnOutcome) (cid : Nat) (pluginName : String) (w : World) :
    Except String Unit × World :=
  match lookupK w.plugins pluginName with
  | none => (Except.error ("plugin " ++ pluginName ++ " not found"), w)
  | some inst =>
    match UnloadPlugin pluginName w with
    | (Except.error _, w1) => (Except.error ("failed to unload plugin " ++ pluginName), w1)
    | (Except.ok _, w1) =>
      match LoadPlugin env cid inst.path w1 with
      | (Except.error _, w2) => (Except.error ("failed to reload plugin " ++ pluginName), w2)
      | (Except.ok _, w2) => (Except.ok (), w2)

/-- Modelled from the spec: "`reload(pluginName)`: unload followed by load
of the same path" — the reference behaviour `ReloadPlugin` is compared
against: unload the plugin, then load its recorded executable path. -/
def unloadThenLoad (env : SpawnOutcome) (cid : Nat) (pluginName : String) (w : World) :
    Except String Unit × World :=
  match lookupK w.plugins pluginName with
  | none => (Except.error ("plugin " ++ pluginName ++ " not found"), w)
  | some inst =>
    match UnloadPlugin pluginName w with
    | (Except.error e, w1) => (Except.error e, w1)
    | (Except.ok _, w1) => LoadPlugin env cid inst.path w1

/-- `Manager.GetPluginClient` is not needed by any claim;
`Manager.GetLoadedPlugins` builds a new map holding the same entries. -/
def GetLoadedPlugins (w : World) : List (String × PluginInstance) := w.plugins

/-- `Manager.GetPluginDrivers`: returns `instance.Drivers` itself — the
reference to the internal slice, not a copy of it. -/
def GetPluginDrivers (pluginName : String) (w : World) : Except String Nat :=
  match lookupK w.plugins pluginName with
  | none => Except.error ("plugin " ++ pluginName ++ " not found")
  | some inst => Except.ok inst.driversRef

/-! ## Directory scanning (`Manager.LoadPluginsFromDir`) -/

/-- One directory entry as returned by `os.ReadDir`. -/
structure DirEntry where
  name : String
  isDir : Bool
deriving DecidableEq, Repr

/-- The observable state of the plugin directory: absent, unreadable, or a
list of entries. -/
inductive DirListing where
  | missing
  | unreadable
  | present (entries : List DirEntry)

/-- `filepath.Ext`: the suffix of the name starting at its final dot, or
the empty string when the name contains no dot. -/
def lastDotSuffix : List Char → Option (List Char)
  | [] => none
  | c :: rest =>
    match lastDotSuffix rest with
    | some suf => some suf
    | none => if c = '.' then some (c :: rest) else none

def goExt (s : String) : String :=
  match lastDotSuffix s.data with
  | none => ""
  | some suf => String.mk suf

/-- One iteration of the `LoadPluginsFromDir` loop: skip directories and
names with a foreign extension, otherwise attempt `LoadPlugin` on the
joined path and drop (log) its error. -/
def loadDirStep (dir : String) (env : String → SpawnOutcome × Nat) (w : World)
    (e : DirEntry) : World :=
  if e.isDir then w
  else if goExt e.name = ".exe" ∨ goExt e.name = "" then
    let path := dir ++ "/" ++ e.name
    (LoadPlugin (env path).1 (env path).2 path w).2
  else w

/-- `Manager.LoadPluginsFromDir`: a missing directory is a successful
no-op; an unreadable one is an error; otherwise each candidate file is
attempted in turn and per-file failures do not abort the scan. -/
def LoadPluginsFromDir (dir : String) (listing : DirListing)
    (env : String → SpawnOutcome × Nat) (w : World) : Except String Unit × World :=
  match listing with
  | .missing => (Except.ok (), w)
  | .unreadable => (Except.error "failed to read plugin directory", w)
  | .present entries => (Except.ok (), entries.foldl (loadDirStep dir env) w)

/-- The empty registry. -/
def regEmpty : RegistryState := { driverMap := [], driverInfoMap := [] }

/-- A world with no plugins, no slices, no processes, empty registry. -/
def worldEmpty : World := { slices := [], plugins := [], alive := [], reg := regEmpty }

/-- A world with one loaded plugin `p` contributing driver `Y`. -/
def worldP : World :=
  { slices := [["Y"]],
    plugins := [("p", { name := "p", path := "/plugins/p", clientId := 3, driversRef := 0 })],
    alive := [3],
    reg := registerPluginDriver "Y" "p" 3 regEmpty }

/-! ## Lemmas about the association-list and slice-store primitives -/

theorem lookupK_delK {α : Type} (l : List (String × α)) (k d : String) :
    lookupK (delK l k) d = if d = k then none else lookupK l d := by
  induction l with
  | nil => simp [delK, lookupK]
  | cons hd tl ih =>
    obtain ⟨k', v⟩ := hd
    simp only [delK]
    by_cases h1 : k' = k
    · rw [if_pos h1, ih]
      by_cases h2 : d = k
      · simp [h2]
      · have h3 : k' ≠ d := by
          rw [h1]; exact fun hc => h2 hc.symm
        simp [lookupK, h2, h3]
    · rw [if_neg h1]
      simp only [lookupK]
      by_cases h3 : k' = d
      · have h2 : ¬d = k := fun hc => h1 (h3.trans hc)
        simp [h3, h2]
      · simp [h3, ih]

theorem lookupK_upsert {α : Type} (l : List (String × α)) (k d : String) (v : α) :
    lookupK (upsert l k v) d = if d = k then some v else lookupK l d := by
  by_cases h : d = k
  · simp [upsert, lookupK, h]
  · have : k ≠ d := fun hc => h (hc ▸ rfl)
    simp [upsert, lookupK, this, lookupK_delK, h]

theorem eraseFirst_cons_self (l : List Nat) (n : Nat) : eraseFirst (n :: l) n = l := by
  simp [eraseFirst]

theorem kill_spawn (w : World) (cid : Nat) : kill (spawn w cid) cid = w := by
  simp [kill, spawn, eraseFirst_cons_self]

theorem getD_set_self (l : List (List String)) (r : Nat) (x : List String) :
    (l.set r x).getD r [] = if r < l.length then x else [] := by
  induction l generalizing r with
  | nil => cases r <;> simp [List.set, List.getD]
  | cons a as ih =>
    cases r with
    | zero => simp [List.set, List.getD]
    | succ r => simpa [List.set, List.getD] using ih r

theorem set_nil (i : Nat) (v : String) : List.set ([] : List String) i v = [] := by
  cases i <;> rfl

/-! ## Lemmas about folds of registry operations -/

theorem unregFold_lookup_none (ds : List String) (reg : RegistryState) (d : String)
    (h : d ∈ ds ∨ lookupK reg.driverMap d = none) :
    lookupK ((ds.foldl (fun r x => UnregisterDriver x r)) reg).driverMap d = none := by
  induction ds generalizing reg with
  | nil =>
    rcases h with h | h
    · cases h
    · simpa using h
  | cons x rest ih =>
    simp only [List.foldl]
    apply ih
    rcases h with h | h
    · rcases List.mem_cons.mp h with h | h
      · right
        simp [UnregisterDriver, lookupK_delK, h]
      · left; exact h
    · right
      simp [UnregisterDriver, lookupK_delK]
      intro _
      exact h

theorem unregFold_frame (ds : List String) (reg : RegistryState) (d : String)
    (h : d ∉ ds) :
    lookupK ((ds.foldl (fun r x => UnregisterDriver x r)) reg).driverMap d
        = lookupK reg.driverMap d
    ∧ lookupK ((ds.foldl (fun r x => UnregisterDriver x r)) reg).driverInfoMap d
        = lookupK reg.driverInfoMap d := by
  induction ds generalizing reg with
  | nil => exact ⟨rfl, rfl⟩
  | cons x rest ih =>
    have hx : d ≠ x := fun hc => h (hc ▸ List.mem_cons_self x rest)
    have hrest : d ∉ rest := fun hc => h (List.mem_cons_of_mem x hc)
    simp only [List.foldl]
    rcases ih (UnregisterDriver x reg) hrest with ⟨h1, h2⟩
    refine ⟨?_, ?_⟩
    · rw [h1]; simp [UnregisterDriver, lookupK_delK, hx]
    · rw [h2]; simp [UnregisterDriver, lookupK_delK, hx]

theorem regFold_getDriver (ds : List String) (pn : String) (cid : Nat)
    (reg : RegistryState) (n : String) (c : DriverCtor)
    (h : GetDriver (ds.foldl (fun r d => registerPluginDriver d pn cid r) reg) n
          = Except.ok c) :
    GetDriver reg n = Except.ok c ∨ c = DriverCtor.pluginCtor cid n := by
  induction ds generalizing reg with
  | nil => exact Or.inl h
  | cons x rest ih =>
    simp only [List.foldl] at h
    rcases ih (registerPluginDriver x pn cid reg) h with h' | h'
    · by_cases hr : IsDriverRegistered reg x
      · left
        simpa [registerPluginDriver, hr] using h'
      · simp only [registerPluginDriver, hr, if_neg, Bool.false_eq_true,
          if_false] at h'
        by_cases hn : n = x
        · right
          subst hn
          simp [RegisterDriver, GetDriver, ctorConfig, NewPluginDriverAdapter,
            PluginDriverAdapter.Config, registerDriverItems, lookupK_upsert] at h'
          exact h'.symm
        · left
          simpa [RegisterDriver, GetDriver, ctorConfig, NewPluginDriverAdapter,
            PluginDriverAdapter.Config, registerDriverItems, lookupK_upsert, hn] using h'
    · exact Or.inr h'

theorem loadPlugin_error_world (env : SpawnOutcome) (cid : Nat) (path : String)
    (w : World) (e : String) (h : (LoadPlugin env cid path w).1 = Except.error e) :
    (LoadPlugin env cid path w).2 = w := by
  cases env with
  | statFail => rfl
  | connectFail => simpa [LoadPlugin] using kill_spawn w cid
  | dispenseFail => simpa [LoadPlugin] using kill_spawn w cid
  | infoFail => simpa [LoadPlugin] using kill_spawn w cid
  | driversFail info =>
    by_cases hl : (lookupK w.plugins info.name).isSome
    · simp [LoadPlugin, spawn, hl] at h
    · simpa [LoadPlugin, spawn, hl] using kill_spawn w cid
  | ok info drivers =>
    by_cases hl : (lookupK w.plugins info.name).isSome
    · simp [LoadPlugin, spawn, hl] at h
    · simp [LoadPlugin, spawn, hl] at h

/-! ## Lemmas about the envelope codec -/

theorem decodeFields_skip : (shl : ShapeList) → (k : String) → (ev : EValue) →
    (entries : EntryList) → keyMemS k shl = false →
    decodeFields shl (EntryList.cons k ev entries) = decodeFields shl entries
  | .nil, _, _, _, _ => rfl
  | .cons k' sh rest, k, ev, entries, h => by
    by_cases hk : k' = k
    · simp [keyMemS, hk] at h
    · have hrest : keyMemS k rest = false := by simpa [keyMemS, hk] using h
      have hke : ¬(k = k') := fun hc => hk hc.symm
      simp only [decodeFields, lookupE, if_neg hke,
        decodeFields_skip rest k ev entries hrest]

mutual
theorem decode_encode_v : (sh : Shape) → (v : FieldValue) → wellTypedV sh v = true →
    decodeV sh (encodeV v) = some v
  | .sStr, .fStr _, _ => rfl
  | .sBool, .fBool _, _ => rfl
  | .sInt, .fInt _, _ => rfl
  | .sRec shl, .fRec fl, h => by
    have h' : wellTypedL shl fl = true := by simpa [wellTypedV] using h
    simp [encodeV, decodeV, decode_encode_l shl fl h']
  | .sStr, .fBool _, h => by simp [wellTypedV] at h
  | .sStr, .fInt _, h => by simp [wellTypedV] at h
  | .sStr, .fRec _, h => by simp [wellTypedV] at h
  | .sBool, .fStr _, h => by simp [wellTypedV] at h
  | .sBool, .fInt _, h => by simp [wellTypedV] at h
  | .sBool, .fRec _, h => by simp [wellTypedV] at h
  | .sInt, .fStr _, h => by simp [wellTypedV] at h
  | .sInt, .fBool _, h => by simp [wellTypedV] at h
  | .sInt, .fRec _, h => by simp [wellTypedV] at h
  | .sRec _, .fStr _, h => by simp [wellTypedV] at h
  | .sRec _, .fBool _, h => by simp [wellTypedV] at h
  | .sRec _, .fInt _, h => by simp [wellTypedV] at h

theorem decode_encode_l : (shl : ShapeList) → (fl : FieldList) → wellTypedL shl fl = true →
    decodeFields shl (encodeL fl) = some fl
  | .nil, .nil, _ => rfl
  | .nil, .cons _ _ _, h => by simp [wellTypedL] at h
  | .cons _ _ _, .nil, h => by simp [wellTypedL] at h
  | .cons k sh rest, .cons k' v rest', h => by
    have hh := h
    simp only [wellTypedL, Bool.and_eq_true, Bool.not_eq_true',
      decide_eq_true_eq] at hh
    obtain ⟨⟨⟨hk, hfresh⟩, hv⟩, hl⟩ := hh
    subst hk
    simp [encodeL, decodeFields, lookupE, decode_encode_v sh v hv,
      decodeFields_skip rest k (encodeV v) (encodeL rest') hfresh,
      decode_encode_l rest rest' hl]
end

mutual
theorem encodeV_inj : (v₁ v₂ : FieldValue) → encodeV v₁ = encodeV v₂ → v₁ = v₂
  | .fStr _, .fStr _, h => by
    simp only [encodeV, EValue.eStr.injEq] at h
    rw [h]
  | .fBool _, .fBool _, h => by
    simp only [encodeV, EValue.eBool.injEq] at h
    rw [h]
  | .fInt _, .fInt _, h => by
    simp only [encodeV, EValue.eNum.injEq] at h
    rw [h]
  | .fRec a, .fRec b, h => by
    simp only [encodeV, EValue.eObj.injEq] at h
    rw [encodeL_inj a b h]
  | .fStr _, .fBool _, h => by simp [encodeV] at h
  | .fStr _, .fInt _, h => by simp [encodeV] at h
  | .fStr _, .fRec _, h => by simp [encodeV] at h
  | .fBool _, .fStr _, h => by simp [encodeV] at h
  | .fBool _, .fInt _, h => by simp [encodeV] at h
  | .fBool _, .fRec _, h => by simp [encodeV] at h
  | .fInt _, .fStr _, h => by simp [encodeV] at h
  | .fInt _, .fBool _, h => by simp [encodeV] at h
  | .fInt _, .fRec _, h => by simp [encodeV] at h
  | .fRec _, .fStr _, h => by simp [encodeV] at h
  | .fRec _, .fBool _, h => by simp [encodeV] at h
  | .fRec _, .fInt _, h => by simp [encodeV] at h

theorem encodeL_inj : (l₁ l₂ : FieldList) → encodeL l₁ = encodeL l₂ → l₁ = l₂
  | .nil, .nil, _ => rfl
  | .nil, .cons _ _ _, h => by simp [encodeL] at h
  | .cons _ _ _, .nil, h => by simp [encodeL] at h
  | .cons k v r, .cons k' v' r', h => by
    simp only [encodeL, EntryList.cons.injEq] at h
    obtain ⟨hk, hv, hr⟩ := h
    rw [hk, encodeV_inj v v' hv, encodeL_inj r r' hr]
end

/-! ## Claim theorems -/

/-- Claim C1 (code bug): the claim states that every `RegisterDriver` call
terminates and that no call path re-acquires the registry mutex while the
same call already holds it.  The code violates this: the trace of mutex
operations a `RegisterDriver` call performs acquires `driverMutex` and
then, inside `registerDriverItems`, attempts to acquire it again while
still holding it; Go's `sync.Mutex` is not reentrant, so the call blocks
forever and no registration takes effect. -/
theorem register_driver_lock_reacquisition :
    reacquiresHeld RegisterDriver_locks = true := by decide

/-- Claim C3: when the Manager encounters a remote driver whose name is
already registered (by a built-in driver or an earlier plugin),
`registerPluginDriver` skips it: the registry is left exactly as it was
and lookups still return the previously stored constructor. -/
theorem plugin_driver_collision_skip (reg : RegistryState)
    (driverName pluginName : String) (cid : Nat)
    (h : IsDriverRegistered reg driverName = true) :
    registerPluginDriver driverName pluginName cid reg = reg
    ∧ GetDriver (registerPluginDriver driverName pluginName cid reg) driverName
        = GetDriver reg driverName := by
  constructor
  · simp [registerPluginDriver, h]
  · simp [registerPluginDriver, h]

theorem plugin_driver_collision_skip_witness :
    IsDriverRegistered worldP.reg "Y" = true
    ∧ registerPluginDriver "Y" "q" 9 worldP.reg = worldP.reg :=
  ⟨by decide, (plugin_driver_collision_skip worldP.reg "Y" "q" 9 (by decide)).1⟩

/-- Claim C4: loading a plugin whose reported identity name is already
loaded kills the freshly spawned process and is a successful no-op: the
manager's table, the registry, and the set of running processes are
exactly as before, so the original entry and its process win. -/
theorem load_plugin_idempotent_by_identity (w : World) (info : PluginInfo)
    (drivers : List String) (cid : Nat) (path : String) (inst : PluginInstance)
    (h : lookupK w.plugins info.name = some inst) :
    LoadPlugin (SpawnOutcome.ok info drivers) cid path w = (Except.ok (), w) := by
  have hs : (lookupK (spawn w cid).plugins info.name).isSome = true := by
    simp [spawn, h]
  simp [LoadPlugin, hs, kill_spawn]

theorem load_plugin_idempotent_by_identity_witness :
    LoadPlugin (SpawnOutcome.ok ⟨"p", "2.0", "", ""⟩ ["Z"]) 8 "/elsewhere/p" worldP
      = (Except.ok (), worldP) :=
  load_plugin_idempotent_by_identity worldP ⟨"p", "2.0", "", ""⟩ ["Z"] 8 "/elsewhere/p"
    { name := "p", path := "/plugins/p", clientId := 3, driversRef := 0 } (by decide)

/-- Claim C5: a failure of the RPC connection, the interface dispense, the
plugin-info retrieval, or the driver enumeration makes `LoadPlugin` kill
the spawned subprocess and return an error with the manager's plugin
table, the driver registry, and the set of running processes exactly as
they were before the call — no partial entry, no registered driver. -/
theorem load_plugin_failure_no_partial_state (w : World) (cid : Nat) (path : String) :
    LoadPlugin SpawnOutcome.connectFail cid path w
      = (Except.error "failed to connect to plugin", w)
    ∧ LoadPlugin SpawnOutcome.dispenseFail cid path w
      = (Except.error "failed to get plugin interface", w)
    ∧ LoadPlugin SpawnOutcome.infoFail cid path w
      = (Except.error "failed to get plugin info", w)
    ∧ ∀ info : PluginInfo, lookupK w.plugins info.name = none →
        LoadPlugin (SpawnOutcome.driversFail info) cid path w
          = (Except.error "failed to get plugin drivers", w) := by
  refine ⟨?_, ?_, ?_, ?_⟩
  · simp [LoadPlugin, kill_spawn]
  · simp [LoadPlugin, kill_spawn]
  · simp [LoadPlugin, kill_spawn]
  · intro info h
    have hs : (lookupK (spawn w cid).plugins info.name).isSome = false := by
      simp [spawn, h]
    simp [LoadPlugin, hs, kill_spawn]

theorem load_plugin_failure_no_partial_state_witness :
    LoadPlugin (SpawnOutcome.driversFail ⟨"q", "1.0", "", "a"⟩) 7 "/plugins/q" worldP
      = (Except.error "failed to get plugin drivers", worldP) :=
  (load_plugin_failure_no_partial_state worldP 7 "/plugins/q").2.2.2
    ⟨"q", "1.0", "", "a"⟩ (by decide)

/-! ## Claim C2: the effect of `UnloadPlugin` on the registry -/

/-- A built-in driver named `X` with an empty Additional struct. -/
def builtinX : DriverCtor :=
  DriverCtor.builtin { Name := "X" } (Additional.structAdd AddFieldList.nil) 0

/-- A world whose registry holds only the built-in driver `X`. -/
def worldBuiltinX : World :=
  { slices := [], plugins := [], alive := [], reg := RegisterDriver builtinX regEmpty }

/-- `worldBuiltinX` after loading plugin `p`, whose only enumerated driver
name `X` collides with the built-in driver and is therefore skipped at
registration time. -/
def worldCollide : World :=
  (LoadPlugin (SpawnOutcome.ok ⟨"p", "1.0", "", ""⟩ ["X"]) 1 "/plugins/p" worldBuiltinX).2

/-- Counterexample to claim C2 as stated: the built-in registration of
`X` survives the load of plugin `p` (whose colliding driver `X` was
skipped), yet unloading `p` removes `X` from the registry — the
registration that the collision skip had left in place is not left
untouched. -/
theorem unload_removes_collided_builtin_cex :
    IsDriverRegistered worldBuiltinX.reg "X" = true
    ∧ (lookupK worldCollide.plugins "p").isSome = true
    ∧ IsDriverRegistered worldCollide.reg "X" = true
    ∧ IsDriverRegistered (UnloadPlugin "p" worldCollide).2.reg "X" = false := by
  decide

/-- Claim C2 (amended): unloading an unknown plugin name fails with a
not-found error and changes nothing.  Unloading a loaded plugin `p`
succeeds, removes `p`'s entry, kills `p`'s subprocess, and unregisters
every driver name in `p`'s recorded (enumerated) driver list — including
names whose registration had been skipped because of a collision, so an
existing registration under such a name is removed as well; names outside
that list keep their registration and their recorded items. -/
theorem unload_plugin_amended (w : World) (pluginName : String) :
    (lookupK w.plugins pluginName = none →
      UnloadPlugin pluginName w
        = (Except.error ("plugin " ++ pluginName ++ " not found"), w))
    ∧ ∀ inst, lookupK w.plugins pluginName = some inst →
        (UnloadPlugin pluginName w).1 = Except.ok ()
        ∧ lookupK (UnloadPlugin pluginName w).2.plugins pluginName = none
        ∧ (UnloadPlugin pluginName w).2.alive = eraseFirst w.alive inst.clientId
        ∧ (∀ d, d ∈ readSlice w inst.driversRef →
            IsDriverRegistered (UnloadPlugin pluginName w).2.reg d = false)
        ∧ (∀ d, d ∉ readSlice w inst.driversRef →
            GetDriver (UnloadPlugin pluginName w).2.reg d = GetDriver w.reg d
            ∧ lookupK (UnloadPlugin pluginName w).2.reg.driverInfoMap d
                = lookupK w.reg.driverInfoMap d) := by
  constructor
  · intro h
    simp [UnloadPlugin, h]
  · intro inst h
    refine ⟨?_, ?_, ?_, ?_, ?_⟩
    · simp [UnloadPlugin, h]
    · simp [UnloadPlugin, h, lookupK_delK]
    · simp [UnloadPlugin, h]
    · intro d hd
      have := unregFold_lookup_none (readSlice w inst.driversRef) w.reg d (Or.inl hd)
      simp [UnloadPlugin, h, IsDriverRegistered, this]
    · intro d hd
      have := unregFold_frame (readSlice w inst.driversRef) w.reg d hd
      constructor
      · simp [UnloadPlugin, h, GetDriver, this.1]
      · simp [UnloadPlugin, h, this.2]

theorem unload_plugin_amended_witness :
    (UnloadPlugin "p" worldCollide).1 = Except.ok ()
    ∧ IsDriverRegistered (UnloadPlugin "p" worldCollide).2.reg "X" = false :=
  have h := (unload_plugin_amended worldCollide "p").2
    { name := "p", path := "/plugins/p", clientId := 1, driversRef := 0 } (by decide)
  ⟨h.1, h.2.2.2.1 "X" (by decide)⟩

/-! ## Claim C6: the read accessors and aliasing -/

/-- A world with one loaded plugin `p` whose recorded driver list is
`["A", "B"]`, stored at slice reference 0. -/
def worldAB : World :=
  { slices := [["A", "B"]],
    plugins := [("p", { name := "p", path := "/plugins/p", clientId := 0, driversRef := 0 })],
    alive := [0],
    reg := regEmpty }

/-- Counterexample to claim C6 as stated: `GetPluginDrivers` hands back
the internal Drivers slice itself; a caller that writes element 0 of the
returned slice changes the plugin's recorded driver list as the Manager
itself observes it afterwards. -/
theorem get_plugin_drivers_alias_cex :
    GetPluginDrivers "p" worldAB = Except.ok 0
    ∧ recordedDrivers worldAB "p" = some ["A", "B"]
    ∧ recordedDrivers (writeSliceElem worldAB 0 0 "Z") "p" = some ["Z", "B"] :=
  ⟨rfl, rfl, rfl⟩

/-- Claim C6 (amended): `GetLoadedPlugins` returns a fresh map holding the
manager's entries, but `GetPluginDrivers` returns the internal Drivers
slice itself rather than a copy: for a loaded plugin the reference it
returns is exactly the instance's internal slice reference, and writing
any element through that reference changes the plugin's recorded driver
list as observed by later Manager operations. -/
theorem accessor_aliasing_amended (w : World) (pluginName : String)
    (inst : PluginInstance) (h : lookupK w.plugins pluginName = some inst) :
    GetPluginDrivers pluginName w = Except.ok inst.driversRef
    ∧ GetLoadedPlugins w = w.plugins
    ∧ ∀ i v, recordedDrivers (writeSliceElem w inst.driversRef i v) pluginName
        = some ((readSlice w inst.driversRef).set i v) := by
  refine ⟨?_, rfl, ?_⟩
  · simp [GetPluginDrivers, h]
  · intro i v
    simp only [recordedDrivers, writeSliceElem, readSlice, h, Option.map_some']
    rw [getD_set_self]
    by_cases hr : inst.driversRef < w.slices.length
    · rw [if_pos hr]
    · rw [if_neg hr]
      have hro : w.slices.getD inst.driversRef [] = [] := by
        rw [List.getD_eq_getElem?_getD, List.getElem?_eq_none (Nat.le_of_not_lt hr)]
        rfl
      rw [hro, set_nil]

theorem accessor_aliasing_amended_witness :
    GetPluginDrivers "p" worldAB
      = Except.ok (PluginInstance.driversRef
          { name := "p", path := "/plugins/p", clientId := 0, driversRef := 0 })
    ∧ recordedDrivers (writeSliceElem worldAB 0 1 "W") "p" = some ["A", "W"] :=
  have h := accessor_aliasing_amended worldAB "p"
    { name := "p", path := "/plugins/p", clientId := 0, driversRef := 0 } (by decide)
  ⟨h.1, by simpa using h.2.2 1 "W"⟩

/-! ## Claim C9: directory scanning -/

theorem loadDir_skip_dirs (dir : String) (env : String → SpawnOutcome × Nat)
    (entries : List DirEntry) (w : World) :
    entries.foldl (loadDirStep dir env) w
      = (entries.filter (fun e => !e.isDir)).foldl (loadDirStep dir env) w := by
  induction entries generalizing w with
  | nil => rfl
  | cons e rest ih =>
    by_cases hd : e.isDir
    · simp [List.filter, hd, loadDirStep, ih]
    · simp only [List.foldl, List.filter]
      rw [ih]
      simp [hd]

/-- Claim C9: loading from a missing directory is a successful no-op that
loads nothing; when the directory is present the scan always returns
success, directory entries are skipped, and a candidate file's failure
does not abort the scan — the remaining entries are processed from
whatever state the failed attempt left (which, the failure being a load
failure, is the untouched state). -/
theorem load_plugins_from_dir_best_effort (dir : String)
    (env : String → SpawnOutcome × Nat) (w : World) :
    LoadPluginsFromDir dir DirListing.missing env w = (Except.ok (), w)
    ∧ (∀ entries, (LoadPluginsFromDir dir (DirListing.present entries) env w).1
        = Except.ok ())
    ∧ (∀ entries, LoadPluginsFromDir dir (DirListing.present entries) env w
        = LoadPluginsFromDir dir
            (DirListing.present (entries.filter (fun e => !e.isDir))) env w)
    ∧ (∀ e entries, e.isDir = false →
        (goExt e.name = ".exe" ∨ goExt e.name = "") →
        LoadPluginsFromDir dir (DirListing.present (e :: entries)) env w
          = LoadPluginsFromDir dir (DirListing.present entries) env
              (LoadPlugin (env (dir ++ "/" ++ e.name)).1 (env (dir ++ "/" ++ e.name)).2
                (dir ++ "/" ++ e.name) w).2) := by
  refine ⟨rfl, fun _ => rfl, ?_, ?_⟩
  · intro entries
    simp [LoadPluginsFromDir, loadDir_skip_dirs]
  · intro e entries hdir hext
    simp [LoadPluginsFromDir, loadDirStep, hdir, hext]

theorem load_plugins_from_dir_best_effort_witness :
    LoadPluginsFromDir "./plugins" (DirListing.present [⟨"demo.exe", false⟩]) (fun _ => (SpawnOutcome.connectFail, 4)) worldEmpty
      = LoadPluginsFromDir "./plugins" (DirListing.present []) (fun _ => (SpawnOutcome.connectFail, 4))
          (LoadPlugin SpawnOutcome.connectFail 4 "./plugins/demo.exe" worldEmpty).2 :=
  (load_plugins_from_dir_best_effort "./plugins" (fun _ => (SpawnOutcome.connectFail, 4))
    worldEmpty).2.2.2 ⟨"demo.exe", false⟩ [] rfl (Or.inl (by decide))

/-- Claim C8: encoding a host record composed of the supported field
types to an envelope and decoding the result back with the original shape
yields the input record; and the envelope content is determined by the
logical record alone — two calls encode to the same envelope exactly when
the records are equal, so repeated encodings are reproducible.  (The
supported-width bound on integer fields is part of `wellTypedL`; envelope
numbers are IEEE-754 doubles, exact precisely on that range.) -/
theorem envelope_roundtrip_stable (shl : ShapeList) (fl : FieldList)
    (h : wellTypedL shl fl = true) :
    decodeFields shl (structToMap fl) = some fl
    ∧ ∀ fl', structToMap fl' = structToMap fl → fl' = fl :=
  ⟨decode_encode_l shl fl h, fun fl' hh => encodeL_inj fl' fl hh⟩

/-- The shape of a directory-object record: name, size, folder flag. -/
def sampleShape : ShapeList :=
  ShapeList.cons "name" Shape.sStr
    (ShapeList.cons "size" Shape.sInt
      (ShapeList.cons "is_folder" Shape.sBool ShapeList.nil))

def sampleObj : FieldList :=
  FieldList.cons "name" (FieldValue.fStr "a.txt")
    (FieldList.cons "size" (FieldValue.fInt 12345)
      (FieldList.cons "is_folder" (FieldValue.fBool false) FieldList.nil))

theorem envelope_roundtrip_stable_witness :
    decodeFields sampleShape (structToMap sampleObj) = some sampleObj :=
  (envelope_roundtrip_stable sampleShape sampleObj (by decide)).1

/-! ## Claim C7: reload against unload-then-load -/

theorem loadPlugin_success (info : PluginInfo) (drivers : List String) (cid : Nat)
    (path : String) (w : World) (h : lookupK w.plugins info.name = none) :
    LoadPlugin (SpawnOutcome.ok info drivers) cid path w
      = (Except.ok (),
         { slices := w.slices ++ [drivers],
           plugins := upsert w.plugins info.name
             { name := info.name, path := path, clientId := cid,
               driversRef := w.slices.length },
           alive := cid :: w.alive,
           reg := drivers.foldl (fun r d => registerPluginDriver d info.name cid r) w.reg }) := by
  simp [LoadPlugin, spawn, allocSlice, h]

theorem unloadPlugin_success (pluginName : String) (w : World) (inst : PluginInstance)
    (h : lookupK w.plugins pluginName = some inst) :
    UnloadPlugin pluginName w
      = (Except.ok (),
         { slices := w.slices,
           plugins := delK w.plugins pluginName,
           alive := eraseFirst w.alive inst.clientId,
           reg := (readSlice w inst.driversRef).foldl
             (fun r d => UnregisterDriver d r) w.reg }) := by
  simp [UnloadPlugin, h]

/-- Claim C7: `ReloadPlugin` is observably equivalent to `UnloadPlugin`
followed by `LoadPlugin` of the plugin's recorded executable path — the
final state is identical and one succeeds exactly when the other does;
reload of an unknown plugin name fails with a not-found error leaving the
state unchanged; when the load step fails the plugin is left unloaded (no
entry remains); and after a successful reload the plugin's entry holds
the new client id, and every driver constructor the load step (re)bound
is bound to the newly spawned process `cid`, not the original one. -/
theorem reload_equiv_unload_then_load (w : World) (pluginName : String)
    (env : SpawnOutcome) (cid : Nat) :
    ((ReloadPlugin env cid pluginName w).2 = (unloadThenLoad env cid pluginName w).2
      ∧ ((ReloadPlugin env cid pluginName w).1 = Except.ok ()
          ↔ (unloadThenLoad env cid pluginName w).1 = Except.ok ()))
    ∧ (lookupK w.plugins pluginName = none →
        ReloadPlugin env cid pluginName w
          = (Except.error ("plugin " ++ pluginName ++ " not found"), w))
    ∧ ∀ inst, lookupK w.plugins pluginName = some inst →
        (∀ e, (LoadPlugin env cid inst.path (UnloadPlugin pluginName w).2).1
              = Except.error e →
            lookupK (ReloadPlugin env cid pluginName w).2.plugins pluginName = none)
        ∧ ∀ info drivers, env = SpawnOutcome.ok info drivers → info.name = pluginName →
            (ReloadPlugin env cid pluginName w).1 = Except.ok ()
            ∧ (∃ ref, lookupK (ReloadPlugin env cid pluginName w).2.plugins pluginName
                = some { name := pluginName, path := inst.path, clientId := cid,
                         driversRef := ref })
            ∧ ∀ d c, GetDriver (ReloadPlugin env cid pluginName w).2.reg d = Except.ok c →
                GetDriver (UnloadPlugin pluginName w).2.reg d = Except.ok c
                ∨ c = DriverCtor.pluginCtor cid d := by
  refine ⟨?_, ?_, ?_⟩
  · cases hlk : lookupK w.plugins pluginName with
    | none => simp [ReloadPlugin, unloadThenLoad, hlk]
    | some inst =>
      have hu := unloadPlugin_success pluginName w inst hlk
      rcases hL : LoadPlugin env cid inst.path (UnloadPlugin pluginName w).2
        with ⟨r, w2⟩
      rw [hu] at hL
      cases r with
      | error e => simp [ReloadPlugin, unloadThenLoad, hlk, hu, hL]
      | ok _ => simp [ReloadPlugin, unloadThenLoad, hlk, hu, hL]
  · intro h
    simp [ReloadPlugin, h]
  · intro inst hlk
    have hu := unloadPlugin_success pluginName w inst hlk
    constructor
    · intro e hfail
      have hw2 := loadPlugin_error_world env cid inst.path
        (UnloadPlugin pluginName w).2 e hfail
      rcases hL : LoadPlugin env cid inst.path (UnloadPlugin pluginName w).2
        with ⟨r, w2⟩
      rw [hL] at hfail hw2
      simp only at hfail hw2
      subst hfail
      rw [hu] at hL
      have : (ReloadPlugin env cid pluginName w).2 = w2 := by
        simp [ReloadPlugin, hlk, hu, hL]
      rw [this, hw2, hu]
      simp [lookupK_delK]
    · intro info drivers henv hname
      subst henv
      subst hname
      have hnone : lookupK (UnloadPlugin info.name w).2.plugins info.name = none := by
        rw [hu]
        simp [lookupK_delK]
      have hload := loadPlugin_success info drivers cid inst.path
        (UnloadPlugin info.name w).2 hnone
      have hred : ReloadPlugin (SpawnOutcome.ok info drivers) cid info.name w
          = (Except.ok (), (LoadPlugin (SpawnOutcome.ok info drivers) cid inst.path
              (UnloadPlugin info.name w).2).2) := by
        rw [ReloadPlugin, hlk]
        simp only [hu]
        rw [hu] at hload
        simp [hload]
      refine ⟨by rw [hred], ⟨(UnloadPlugin info.name w).2.slices.length, ?_⟩, ?_⟩
      · rw [hred, hload]
        simp [lookupK_upsert]
      · intro d c hdc
        rw [hred, hload] at hdc
        simp only at hdc
        exact regFold_getDriver drivers info.name cid (UnloadPlugin info.name w).2.reg
          d c hdc

theorem reload_equiv_unload_then_load_witness :
    (ReloadPlugin (SpawnOutcome.ok ⟨"p", "1.1", "", ""⟩ ["Y"]) 5 "p" worldP).1
      = Except.ok () :=
  (((reload_equiv_unload_then_load worldP "p" (SpawnOutcome.ok ⟨"p", "1.1", "", ""⟩ ["Y"]) 5).2.2
      { name := "p", path := "/plugins/p", clientId := 3, driversRef := 0 }
      (by decide)).2 ⟨"p", "1.1", "", ""⟩ ["Y"] rfl rfl).1

/-- Claim C10: the adapter's `Config` issues no remote call — it depends
only on the bound driver name, not on the plugin client — and is the
fixed descriptor with `Name` the bound driver name, `DefaultRoot` "/",
and every boolean option false; `GetAddition` is an empty generic map,
and consequently `registerDriverItems` records an empty additional-items
list for the driver instead of deriving items by field reflection. -/
theorem adapter_config_static_defaults (cid cid' : Nat) (driverName : String)
    (reg : RegistryState) :
    (NewPluginDriverAdapter cid driverName).Config.Name = driverName
    ∧ (NewPluginDriverAdapter cid driverName).Config.DefaultRoot = "/"
    ∧ (NewPluginDriverAdapter cid driverName).Config.LocalSort = false
    ∧ (NewPluginDriverAdapter cid driverName).Config.OnlyLinkMFile = false
    ∧ (NewPluginDriverAdapter cid driverName).Config.OnlyProxy = false
    ∧ (NewPluginDriverAdapter cid driverName).Config.NoCache = false
    ∧ (NewPluginDriverAdapter cid driverName).Config.NoUpload = false
    ∧ (NewPluginDriverAdapter cid driverName).Config.NeedMs = false
    ∧ (NewPluginDriverAdapter cid driverName).Config.CheckStatus = false
    ∧ (NewPluginDriverAdapter cid driverName).Config.Alert = ""
    ∧ (NewPluginDriverAdapter cid driverName).Config.NoOverwriteUpload = false
    ∧ (NewPluginDriverAdapter cid driverName).Config.ProxyRangeOption = false
    ∧ (NewPluginDriverAdapter cid driverName).Config.NoLinkURL = false
    ∧ (NewPluginDriverAdapter cid' driverName).Config
        = (NewPluginDriverAdapter cid driverName).Config
    ∧ (NewPluginDriverAdapter cid driverName).GetAddition = Additional.mapAdd []
    ∧ (lookupK
        (registerDriverItems (NewPluginDriverAdapter cid driverName).Config
          ((NewPluginDriverAdapter cid driverName).GetAddition) reg).driverInfoMap
        driverName).map DriverInfo.Additional = some [] := by
  refine ⟨rfl, rfl, rfl, rfl, rfl, rfl, rfl, rfl, rfl, rfl, rfl, rfl, rfl, rfl, rfl, ?_⟩
  simp [registerDriverItems, NewPluginDriverAdapter, PluginDriverAdapter.Config,
    PluginDriverAdapter.GetAddition, lookupK_upsert]

end OpenList
